import Mathlib

/-!
Shallow embedding of `src/redis_logger/example_smtp_logger.py`.

The file models, straight from the source:
* the runtime attribute record of `InovatSMTPHandler` and its `emit` /
  `__emit` methods (buffering, threshold flush, error handling);
* the constructor `InovatSMTPHandler.__init__`, including the chained
  assignment `self.__buffer = list[logging.LogRecord] = []` on line 99 and
  the keyword lookup `kwargs.get("maihost", "")` on line 82;
* the dispatch on line 110, `self.__executor.submit(self.__emit, self).result()`,
  which calls the bound zero-parameter method `__emit` with one extra
  positional argument;
* the `SMTPLogger` facade (`BaseLogger` methods and `configure`), with the
  field-less pydantic configuration model the repository declares.

Log records are represented by their formatted text carrier `String`; the
formatter `self.format` is kept abstract as a function parameter `fmt`.
Concurrency is modelled sequentially: the lock on line 107 makes the
append and the threshold check one atomic step, which is exactly what a
sequential function computes.
-/

/-- Python exception kinds that occur in (or are named for) this code.
`configurationError` is named only by the specification ("invalid
capacity, malformed endpoint parameters"); no code path in the repository
constructs it, it exists to state spec claims about error kinds. -/
inductive PyErr where
  | typeError
  | valueError
  | attributeError
  | exception
  | configurationError
deriving DecidableEq

/-- Python values crossing the `*args` / `**kwargs` boundary of
`InovatSMTPHandler.__init__` (ll. 81-103). -/
inductive PyVal where
  | pynone
  | bool (b : Bool)
  | int (n : Int)
  | float (q : Rat)
  | str (s : String)
  | strlist (xs : List String)
  | pair (a b : PyVal)
deriving DecidableEq

/-- A log record, represented by the text the handler's formatter renders. -/
abbrev LogRecord := String

/-- Runtime attributes of an `InovatSMTPHandler` object: the fields stored
by `logging.handlers.SMTPHandler.__init__` (ll. 89-97) plus the buffer
size and buffer of ll. 98-99. -/
structure InovatSMTPHandler where
  mailhost : String
  mailport : Option Int
  fromaddr : String
  toaddrs : List String
  subject : String
  timeout : Rat
  bufferSize : Int
  buffer : List LogRecord
deriving DecidableEq

/-- The outbound `email.message.EmailMessage` built by `__emit`
(ll. 124-131); the `Date` header (l. 128) is wall-clock time and is not
modelled. -/
structure EmailMessage where
  fromaddr : String
  toField : String
  subjectField : String
  content : String
deriving DecidableEq

/-- Embeds Python `sep.join(xs)` (ll. 126 and 130): the elements of `xs`
concatenated in order with `sep` between consecutive elements, the empty
string for an empty list. -/
def pyStrJoin (sep : String) : List String → String
  | [] => ""
  | [x] => x
  | x :: y :: xs => x ++ sep ++ pyStrJoin sep (y :: xs)

/-- Line 82: `mailhost = args[0] if len(args) > 0 else kwargs.get("maihost", "")`.
Note the key looked up is `"maihost"`, not `"mailhost"`: a caller passing
the keyword argument `mailhost=...` never reaches this lookup. -/
def extractMailhostArg (args : List PyVal) (kwargs : List (String × PyVal)) : PyVal :=
  if args.length > 0 then args.getD 0 (.str "")
  else ((kwargs.lookup "maihost").getD (.str ""))

/-- `SMTPHandler.__init__`: `if isinstance(mailhost, (list, tuple)):
self.mailhost, self.mailport = mailhost`. The two-element unpack is
attempted for ANY list or tuple: a two-tuple (`pair`) or two-element list
yields host and port, a list of any other length raises `ValueError`
("not enough values" / "too many values to unpack"), and every non-list,
non-tuple value is stored as the host with no port, without error. -/
def unpackMailhost : PyVal → Except PyErr (PyVal × Option PyVal)
  | .pair a b => .ok (a, some b)
  | .strlist [a, b] => .ok (.str a, some (.str b))
  | .strlist _ => .error PyErr.valueError
  | v => .ok (v, none)

/-- `SMTPHandler.__init__`: `if isinstance(credentials, (list, tuple)):
self.username, self.password = credentials`. Same shape: any list or
tuple is two-unpacked, raising `ValueError` for a length other than two;
any other value becomes the username alone, without error. -/
def unpackCredentials : PyVal → Except PyErr (PyVal × Option PyVal)
  | .pair a b => .ok (a, some b)
  | .strlist [a, b] => .ok (.str a, some (.str b))
  | .strlist _ => .error PyErr.valueError
  | v => .ok (v, none)

/-- Line 99: `self.__buffer = list[logging.LogRecord] = []`. A chained
assignment evaluates `[]` once and assigns the targets left to right: the
first target `self.__buffer` is set, then the second target is an item
assignment on the builtin type object `list`, and `type` objects do not
support item assignment, so the statement raises `TypeError`. -/
def listTypeItemAssignment : Except PyErr Unit :=
  .error PyErr.typeError

/-- `InovatSMTPHandler.__init__` (ll. 81-103) over Python calling data:
positional `args` and keyword `kwargs`. The argument extraction of
ll. 82-88 cannot raise; `super().__init__` (ll. 89-97) two-unpacks a
list/tuple `mailhost` and then a list/tuple `credentials`, raising
`ValueError` for a length other than two; otherwise line 98 stores the
buffer size and line 99 then raises `TypeError`, so the constructor
never completes and `.ok ()` (a fully constructed handler) is
unreachable. -/
def InovatSMTPHandler.construct (args : List PyVal)
    (kwargs : List (String × PyVal)) : Except PyErr Unit :=
  let mailhost := extractMailhostArg args kwargs
  let _fromaddr := if args.length > 1 then args.getD 1 (.str "")
    else ((kwargs.lookup "fromaddr").getD (.str ""))
  let _toaddrs := if args.length > 2 then args.getD 2 (.str "")
    else ((kwargs.lookup "toaddrs").getD (.strlist []))
  let _subject := if args.length > 3 then args.getD 3 (.str "")
    else ((kwargs.lookup "subject").getD (.str ""))
  let credentials := (kwargs.lookup "credentials").getD .pynone
  let _secure := (kwargs.lookup "secure").getD (.bool false)
  let _timeout := (kwargs.lookup "timeout").getD (.float 5)
  match unpackMailhost mailhost with
  | .error e => .error e
  | .ok _hostport =>
    match unpackCredentials credentials with
    | .error e => .error e
    | .ok _userpwd =>
      -- l. 98: self.__buffer_size = kwargs.get("buffer_size", 10), cannot raise
      let _bufferSize := (kwargs.lookup "buffer_size").getD (.int 10)
      match listTypeItemAssignment with
      | .error e => .error e
      | .ok () =>
        -- ll. 100-103: executor and lock creation, never reached
        .ok ()

/-- The keyword dictionary `SMTPLogger.configure` builds for the handler
constructor (ll. 154-163): every parameter is passed by keyword, none
positionally. -/
def configureHandlerKwargs (mh fa ta sj cr se tmo bs : PyVal) :
    List (String × PyVal) :=
  [("mailhost", mh), ("fromaddr", fa), ("toaddrs", ta), ("subject", sj),
   ("credentials", cr), ("secure", se), ("timeout", tmo), ("buffer_size", bs)]

/-- `__emit` builds one outbound message (ll. 124-131): sender, the
comma-joined recipient list, the subject, and as content the
newline-joined formatted text of every record currently in the buffer. -/
def InovatSMTPHandler.privateEmitMessage (fmt : LogRecord → String)
    (s : InovatSMTPHandler) : EmailMessage :=
  { fromaddr := s.fromaddr
    toField := pyStrJoin "," s.toaddrs
    subjectField := s.subject
    content := pyStrJoin "\n" (s.buffer.map fmt) }

/-- Ll. 120-122: `port = self.mailport; if not port: port = smtplib.SMTP_PORT`
(`SMTP_PORT` is 25; `not port` is true for `None` and for `0`). -/
def InovatSMTPHandler.resolvedPort (s : InovatSMTPHandler) : Int :=
  match s.mailport with
  | none => 25
  | some p => if p = 0 then 25 else p

/-- Line 123: `smtplib.SMTP(host=self.mailhost, port=port, timeout=self.timeout)` —
the connection parameters `__emit` hands to the SMTP client. -/
def InovatSMTPHandler.connectParams (s : InovatSMTPHandler) :
    String × Int × Rat :=
  (s.mailhost, s.resolvedPort, s.timeout)

/-- Python call-arity semantics for a plain function with `params`
positional parameters and no defaults: a call supplying `args` positional
arguments raises `TypeError` unless the counts match. -/
def pyCallArity (params args : Nat) (body : Except PyErr Unit) :
    Except PyErr Unit :=
  if args = params then body else .error PyErr.typeError

/-- Line 110: `self.__executor.submit(self.__emit, self).result()`.
`self.__emit` is the bound method of the one-parameter function `__emit`,
so the submitted call supplies two positional arguments to it (the bound
`self` plus the extra `self` argument); the worker raises `TypeError`
before the body of `__emit` runs, and `.result()` re-raises it in the
producer thread. `delivery` stands for what the body would have returned
had the call been well-formed. -/
def submitBoundEmitWithSelf (delivery : Except PyErr Unit) :
    Except PyErr Unit :=
  pyCallArity 1 2 delivery

/-- Effects of the `try` block of `emit` (ll. 107-111): the resulting
handler state, the batches handed to a flush attempt, and the messages a
completed flush delivered; `result` is what the block returns or raises.
`flushResult` abstracts the outcome of the waited-on dispatch of line
110. -/
structure EmitBodyOut where
  result : Except PyErr Unit
  state : InovatSMTPHandler
  attempted : List (List LogRecord)
  delivered : List EmailMessage

/-- The `try` block of `emit` (ll. 107-111): under the lock, append the
record, and when the buffer length has reached the threshold, wait on the
dispatched flush; only after that wait returns is the buffer replaced by
a fresh empty list (l. 111). If the wait raises, the reassignment is
never executed. -/
def InovatSMTPHandler.emitTryBody (flushResult : Except PyErr Unit)
    (fmt : LogRecord → String) (s : InovatSMTPHandler) (r : LogRecord) :
    EmitBodyOut :=
  let s1 : InovatSMTPHandler := { s with buffer := s.buffer ++ [r] }
  if (s1.buffer.length : Int) ≥ s1.bufferSize then
    match flushResult with
    | .error e =>
        { result := .error e, state := s1
          attempted := [s1.buffer], delivered := [] }
    | .ok () =>
        { result := .ok (), state := { s1 with buffer := [] }
          attempted := [s1.buffer]
          delivered := [s1.privateEmitMessage fmt] }
  else
    { result := .ok (), state := s1, attempted := [], delivered := [] }

/-- `except Exception` (l. 112) catches every exception modelled here:
all of them derive from `Exception`. -/
def exceptionCatches : PyErr → Bool := fun _ => true

/-- Observable outcome of one `emit` call: final handler state, flush
batches attempted, messages delivered, the records passed to the error
hook `handleError` (l. 113), and the exception `emit` lets escape to its
caller, if any. -/
structure EmitOutcome where
  state : InovatSMTPHandler
  attempted : List (List LogRecord)
  delivered : List EmailMessage
  hookCalls : List LogRecord
  raised : Option PyErr
deriving DecidableEq

/-- `emit` (ll. 105-113) with the outcome of the line-110 dispatch
abstracted: run the `try` block; on an exception caught by
`except Exception`, call `self.handleError(record=record)` and return
normally. -/
def InovatSMTPHandler.emitGen (flushResult : Except PyErr Unit)
    (fmt : LogRecord → String) (s : InovatSMTPHandler) (r : LogRecord) :
    EmitOutcome :=
  let b := s.emitTryBody flushResult fmt r
  match b.result with
  | .ok () =>
      { state := b.state, attempted := b.attempted
        delivered := b.delivered, hookCalls := [], raised := none }
  | .error e =>
      if exceptionCatches e then
        { state := b.state, attempted := b.attempted
          delivered := b.delivered, hookCalls := [r], raised := none }
      else
        { state := b.state, attempted := b.attempted
          delivered := b.delivered, hookCalls := [], raised := some e }

/-- `emit` as written: the flush outcome is the arity-failing submit of
line 110. `delivery` is the (never consulted) outcome the flush body
would have produced. -/
def InovatSMTPHandler.emit (fmt : LogRecord → String)
    (delivery : Except PyErr Unit) (s : InovatSMTPHandler) (r : LogRecord) :
    EmitOutcome :=
  s.emitGen (submitBoundEmitWithSelf delivery) fmt r

/-- Accumulated observables of a sequence of `emit` calls. -/
structure RunOut where
  state : InovatSMTPHandler
  attempted : List (List LogRecord)
  delivered : List EmailMessage
  hookCalls : List LogRecord
deriving DecidableEq

/-- Run `emit` over a list of records in order, concatenating the
attempted batches, delivered messages and error-hook calls. -/
def InovatSMTPHandler.runEmits (fmt : LogRecord → String)
    (delivery : Except PyErr Unit) (s : InovatSMTPHandler) :
    List LogRecord → RunOut
  | [] => { state := s, attempted := [], delivered := [], hookCalls := [] }
  | r :: rs =>
    let o := s.emit fmt delivery r
    let rest := o.state.runEmits fmt delivery rs
    { state := rest.state
      attempted := o.attempted ++ rest.attempted
      delivered := o.delivered ++ rest.delivered
      hookCalls := o.hookCalls ++ rest.hookCalls }

/-- A handler state with the endpoint parameters `SMTPLogger.configure`
intends, a given capacity and a given buffer: used to evaluate the
methods on concrete inputs. -/
def mkState (cap : Int) (buf : List LogRecord) : InovatSMTPHandler :=
  { mailhost := "smtp.example.com", mailport := none
    fromaddr := "noreply@example.com", toaddrs := ["ops@example.com"]
    subject := "logs", timeout := 5, bufferSize := cap, buffer := buf }

/-- `class SMTPLoggerConfiguration(BaseModel): pass` (ll. 16-17): the
configuration model declares no fields. -/
structure SMTPLoggerConfiguration

/-- The configuration attributes `SMTPLogger.configure` and
`BaseLogger.log` read (ll. 148-164 and l. 52). -/
inductive ConfigField where
  | name | format | dateFormat | mailhost | fromaddr | toaddrs
  | subject | credentials | secure | timeout | bufferSize | logLevel

/-- Attribute access on the configuration model: the model declares no
fields, so every access raises `AttributeError`. -/
def configAttr (_ : SMTPLoggerConfiguration) (_ : ConfigField) :
    Except PyErr PyVal :=
  .error PyErr.attributeError

/-- The mutable state of an `SMTPLogger` facade: the stored configuration
object and `self._logger`, `None` until `configure` assigns it
(`BaseLogger.__init__`, ll. 27-29). -/
structure SMTPLogger where
  configuration : SMTPLoggerConfiguration
  logger : Option PyVal

/-- `SMTPLogger.__init__` via `BaseLogger.__init__`: stores the
configuration and sets `self._logger = None`. -/
def SMTPLogger.construct (cfg : SMTPLoggerConfiguration) : SMTPLogger :=
  { configuration := cfg, logger := none }

/-- `BaseLogger.configured` (ll. 46-47): `self._logger is not None`. -/
def SMTPLogger.configured (st : SMTPLogger) : Bool :=
  st.logger.isSome

/-- The `try` block of `SMTPLogger.configure` (ll. 147-166). The argument
`self._configuration.name` of l. 149 is evaluated before `getLogger` runs
and before `self._logger` is assigned, so when that attribute access
raises, the logger field is left untouched. -/
def SMTPLogger.configureBody (st : SMTPLogger) :
    Except PyErr Unit × SMTPLogger :=
  match configAttr st.configuration .name with
  | .error e => (.error e, st)
  | .ok nm =>
    let st1 : SMTPLogger := { st with logger := some nm }
    (do
      let _fmtStr ← configAttr st.configuration .format
      let _dfmt ← configAttr st.configuration .dateFormat
      let mh ← configAttr st.configuration .mailhost
      let fa ← configAttr st.configuration .fromaddr
      let ta ← configAttr st.configuration .toaddrs
      let sj ← configAttr st.configuration .subject
      let cr ← configAttr st.configuration .credentials
      let se ← configAttr st.configuration .secure
      let tmo ← configAttr st.configuration .timeout
      let bs ← configAttr st.configuration .bufferSize
      let _ ← InovatSMTPHandler.construct []
        (configureHandlerKwargs mh fa ta sj cr se tmo bs)
      let _lvl ← configAttr st.configuration .logLevel
      -- setFormatter and addHandler (ll. 165-166) raise nothing
      .ok (), st1)

/-- `SMTPLogger.configure` (ll. 146-168): any exception inside the `try`
block is caught and re-raised as a bare `Exception`. -/
def SMTPLogger.configure (st : SMTPLogger) :
    Except PyErr Unit × SMTPLogger :=
  match st.configureBody with
  | (.ok (), st1) => (.ok (), st1)
  | (.error _, st1) => (.error PyErr.exception, st1)

/-- `BaseLogger.log` (ll. 49-52): raise when unconfigured, otherwise read
`self._configuration.log_level` and delegate to the standard logger call
(modelled as succeeding). -/
def SMTPLogger.log (st : SMTPLogger) (_msg : String) : Except PyErr Unit :=
  if st.configured then do
    let _lvl ← configAttr st.configuration .logLevel
    .ok ()
  else .error PyErr.exception

/-- `BaseLogger.debug` (ll. 54-57). -/
def SMTPLogger.debug (st : SMTPLogger) (_msg : String) : Except PyErr Unit :=
  if st.configured then .ok () else .error PyErr.exception

/-- `BaseLogger.info` (ll. 59-62). -/
def SMTPLogger.info (st : SMTPLogger) (_msg : String) : Except PyErr Unit :=
  if st.configured then .ok () else .error PyErr.exception

/-- `BaseLogger.warning` (ll. 64-67). -/
def SMTPLogger.warning (st : SMTPLogger) (_msg : String) : Except PyErr Unit :=
  if st.configured then .ok () else .error PyErr.exception

/-- `BaseLogger.error` (ll. 69-72). -/
def SMTPLogger.error (st : SMTPLogger) (_msg : String) : Except PyErr Unit :=
  if st.configured then .ok () else .error PyErr.exception

/-- `BaseLogger.critical` (ll. 74-77). -/
def SMTPLogger.critical (st : SMTPLogger) (_msg : String) : Except PyErr Unit :=
  if st.configured then .ok () else .error PyErr.exception

/-- Written from the specification's words for comparison with the code:
"the delivered message body equals the formatted records joined by
newline, in the exact order they were appended". -/
def specJoinedBody (fmt : LogRecord → String) : List LogRecord → String
  | [] => ""
  | r :: rs =>
    if rs.isEmpty then fmt r else fmt r ++ "\n" ++ specJoinedBody fmt rs

/-! ## Helper lemmas -/

/-- The mailhost two-unpack either succeeds or raises `ValueError`. -/
theorem unpackMailhost_cases (v : PyVal) :
    (∃ x, unpackMailhost v = .ok x) ∨ unpackMailhost v = .error PyErr.valueError := by
  cases v with
  | strlist xs =>
    match xs with
    | [] => exact Or.inr rfl
    | [_] => exact Or.inr rfl
    | [_, _] => exact Or.inl ⟨_, rfl⟩
    | _ :: _ :: _ :: _ => exact Or.inr rfl
  | pair a b => exact Or.inl ⟨_, rfl⟩
  | pynone => exact Or.inl ⟨_, rfl⟩
  | bool b => exact Or.inl ⟨_, rfl⟩
  | int n => exact Or.inl ⟨_, rfl⟩
  | float q => exact Or.inl ⟨_, rfl⟩
  | str s => exact Or.inl ⟨_, rfl⟩

/-- The credentials two-unpack either succeeds or raises `ValueError`. -/
theorem unpackCredentials_cases (v : PyVal) :
    (∃ x, unpackCredentials v = .ok x) ∨
    unpackCredentials v = .error PyErr.valueError := by
  cases v with
  | strlist xs =>
    match xs with
    | [] => exact Or.inr rfl
    | [_] => exact Or.inr rfl
    | [_, _] => exact Or.inl ⟨_, rfl⟩
    | _ :: _ :: _ :: _ => exact Or.inr rfl
  | pair a b => exact Or.inl ⟨_, rfl⟩
  | pynone => exact Or.inl ⟨_, rfl⟩
  | bool b => exact Or.inl ⟨_, rfl⟩
  | int n => exact Or.inl ⟨_, rfl⟩
  | float q => exact Or.inl ⟨_, rfl⟩
  | str s => exact Or.inl ⟨_, rfl⟩

/-- Every construction attempt fails: with `ValueError` when a list/tuple
mailhost or credentials argument has a length other than two (the stdlib
unpack of ll. 89-97 raises first), and otherwise with the `TypeError` of
line 99. -/
theorem construct_error_cases (args : List PyVal)
    (kwargs : List (String × PyVal)) :
    InovatSMTPHandler.construct args kwargs = .error PyErr.typeError ∨
    InovatSMTPHandler.construct args kwargs = .error PyErr.valueError := by
  rcases unpackMailhost_cases (extractMailhostArg args kwargs) with ⟨x, hx⟩ | hx
  · rcases unpackCredentials_cases ((kwargs.lookup "credentials").getD .pynone)
      with ⟨y, hy⟩ | hy
    · left
      simp [InovatSMTPHandler.construct, hx, hy, listTypeItemAssignment]
    · right
      simp [InovatSMTPHandler.construct, hx, hy]
  · right
    simp [InovatSMTPHandler.construct, hx]

/-- When both stdlib unpacks succeed — in particular for every string,
`None` or two-tuple argument, so for everything `SMTPLogger.configure`
passes — the construction fails with the `TypeError` of line 99. -/
theorem construct_eq_typeError_of_unpack_ok (args : List PyVal)
    (kwargs : List (String × PyVal))
    (hm : ∃ x, unpackMailhost (extractMailhostArg args kwargs) = .ok x)
    (hc : ∃ y, unpackCredentials ((kwargs.lookup "credentials").getD .pynone) = .ok y) :
    InovatSMTPHandler.construct args kwargs = .error PyErr.typeError := by
  obtain ⟨x, hx⟩ := hm
  obtain ⟨y, hy⟩ := hc
  simp [InovatSMTPHandler.construct, hx, hy, listTypeItemAssignment]

/-- `configure` always raises the bare `Exception` of line 168 and leaves
the facade state untouched: the very first step of its `try` block reads
`self._configuration.name`, and the configuration model has no fields. -/
theorem configure_eq_exception (st : SMTPLogger) :
    SMTPLogger.configure st = (.error PyErr.exception, st) := rfl

/-- The code's newline join of the formatted records coincides with the
specification's description of the delivered body. -/
theorem pyStrJoin_map_eq_specJoinedBody (fmt : LogRecord → String) :
    ∀ rs : List LogRecord, pyStrJoin "\n" (rs.map fmt) = specJoinedBody fmt rs
  | [] => rfl
  | [_] => rfl
  | r :: r2 :: rs => by
    simp only [List.map_cons, pyStrJoin, specJoinedBody, List.isEmpty_cons]
    rw [← List.map_cons fmt r2 rs, pyStrJoin_map_eq_specJoinedBody fmt (r2 :: rs)]
    simp [specJoinedBody]

/-! ## Claim theorems -/

/-- Claim C1: for every handler state and record, `emit` lets no
exception escape to its caller; whenever the `try` block raises
(buffering cannot, the flush dispatch and delivery can), the exception is
caught and `handleError` is invoked with the record, exactly once, after
which `emit` returns normally. -/
theorem emit_never_raises_and_routes_to_hook (flushResult : Except PyErr Unit)
    (fmt : LogRecord → String) (s : InovatSMTPHandler) (r : LogRecord) :
    (InovatSMTPHandler.emitGen flushResult fmt s r).raised = none ∧
    (InovatSMTPHandler.emitGen flushResult fmt s r).hookCalls =
      (match (InovatSMTPHandler.emitTryBody flushResult fmt s r).result with
       | .ok _ => []
       | .error _ => [r]) := by
  unfold InovatSMTPHandler.emitGen
  cases h : (InovatSMTPHandler.emitTryBody flushResult fmt s r).result with
  | ok u => cases u; simp [h]
  | error e => simp [h, exceptionCatches]

/-- Claim C2, counterexample: with capacity 1, the flush attempt
triggered by emitting "a" fails (the line-110 dispatch raises), the error
hook fires once — but the record stays in the buffer and the next emit's
flush attempt carries the batch ["a", "b"]: the failed batch is kept and
re-attempted, contradicting "the records of that batch are considered
lost" and "no automatic retry ... occurs on any later emit call". -/
theorem atMostOnce_counterexample :
    (InovatSMTPHandler.emit id (.ok ()) (mkState 1 []) "a").hookCalls = ["a"] ∧
    (InovatSMTPHandler.emit id (.ok ()) (mkState 1 []) "a").state.buffer = ["a"] ∧
    (InovatSMTPHandler.emit id (.ok ())
        (InovatSMTPHandler.emit id (.ok ()) (mkState 1 []) "a").state "b").attempted
      = [["a", "b"]] :=
  ⟨rfl, rfl, rfl⟩

/-- Claim C2 as amended: when the waited-on flush raises, the error hook
is invoked exactly once for that attempt, but the batch is retained in
the buffer (nothing is delivered and nothing is discarded), so the
records are re-attempted at the next threshold-reaching emit rather than
being lost after one attempt. -/
theorem failed_flush_hook_once_batch_retained (e : PyErr)
    (fmt : LogRecord → String) (s : InovatSMTPHandler) (r : LogRecord)
    (h : (s.buffer.length : Int) + 1 ≥ s.bufferSize) :
    (InovatSMTPHandler.emitGen (.error e) fmt s r).hookCalls = [r] ∧
    (InovatSMTPHandler.emitGen (.error e) fmt s r).state.buffer = s.buffer ++ [r] ∧
    (InovatSMTPHandler.emitGen (.error e) fmt s r).attempted = [s.buffer ++ [r]] ∧
    (InovatSMTPHandler.emitGen (.error e) fmt s r).delivered = [] := by
  have hthr : s.bufferSize ≤ (s.buffer.length : Int) + 1 := h
  simp [InovatSMTPHandler.emitGen, InovatSMTPHandler.emitTryBody, hthr,
    exceptionCatches]

/-- Witness for `failed_flush_hook_once_batch_retained` at capacity 1. -/
theorem failed_flush_hook_once_batch_retained_witness :
    (((mkState 1 []).buffer.length : Int) + 1 ≥ (mkState 1 []).bufferSize) ∧
    (InovatSMTPHandler.emitGen (.error PyErr.typeError) id (mkState 1 []) "a").hookCalls
      = ["a"] :=
  ⟨by decide,
   (failed_flush_hook_once_batch_retained PyErr.typeError id (mkState 1 []) "a"
      (by decide)).1⟩

/-- Claim C3, counterexample: constructing with `credentials=["user"]` —
a one-element list — raises `ValueError` from the two-element unpack in
`SMTPHandler.__init__` (ll. 89-97), before line 99 is ever reached, so
the constructor does not raise `TypeError` for *every* argument
combination. -/
theorem construct_typeError_counterexample :
    InovatSMTPHandler.construct []
      (configureHandlerKwargs (.str "smtp.example.com") (.str "noreply@example.com")
        (.strlist ["ops@example.com"]) (.str "logs") (.strlist ["user"]) .pynone
        (.float 5) (.int 10))
      = .error PyErr.valueError ∧
    PyErr.valueError ≠ PyErr.typeError :=
  ⟨rfl, by decide⟩

/-- Claim C3 as amended: constructing an `InovatSMTPHandler` raises for
every argument combination before the constructor completes — with the
`TypeError` of the line-99 chained assignment whenever the mailhost and
credentials arguments survive the stdlib two-element unpack (in
particular for every combination `SMTPLogger.configure` could pass), and
with the unpack's `ValueError` for a list or tuple of length other than
two; every call to `SMTPLogger.configure` raises as well and leaves the
facade state unchanged, so a facade built by `SMTPLogger.__init__` never
reports itself configured. -/
theorem construct_and_configure_always_fail :
    (∀ (args : List PyVal) (kwargs : List (String × PyVal)),
        InovatSMTPHandler.construct args kwargs = .error PyErr.typeError ∨
        InovatSMTPHandler.construct args kwargs = .error PyErr.valueError) ∧
    (∀ (args : List PyVal) (kwargs : List (String × PyVal)),
        (∃ x, unpackMailhost (extractMailhostArg args kwargs) = .ok x) →
        (∃ y, unpackCredentials ((kwargs.lookup "credentials").getD .pynone) = .ok y) →
        InovatSMTPHandler.construct args kwargs = .error PyErr.typeError) ∧
    (∀ st : SMTPLogger, SMTPLogger.configure st = (.error PyErr.exception, st)) ∧
    (∀ cfg : SMTPLoggerConfiguration,
        SMTPLogger.configured
          (SMTPLogger.configure (SMTPLogger.construct cfg)).2 = false) :=
  ⟨fun args kwargs => construct_error_cases args kwargs,
   fun args kwargs hm hc => construct_eq_typeError_of_unpack_ok args kwargs hm hc,
   fun st => configure_eq_exception st,
   fun _ => rfl⟩

/-- Witness for `construct_and_configure_always_fail`: the keyword
arguments `SMTPLogger.configure` would pass, where both unpacks succeed
and the failure is the line-99 `TypeError`. -/
theorem construct_and_configure_always_fail_witness :
    (∃ x, unpackMailhost (extractMailhostArg []
      (configureHandlerKwargs (.str "smtp.example.com") (.str "noreply@example.com")
        (.strlist ["ops@example.com"]) (.str "logs") .pynone .pynone
        (.float 5) (.int 10))) = .ok x) ∧
    (∃ y, unpackCredentials (((configureHandlerKwargs (.str "smtp.example.com")
        (.str "noreply@example.com") (.strlist ["ops@example.com"]) (.str "logs")
        .pynone .pynone (.float 5) (.int 10)).lookup "credentials").getD .pynone)
      = .ok y) ∧
    InovatSMTPHandler.construct []
      (configureHandlerKwargs (.str "smtp.example.com") (.str "noreply@example.com")
        (.strlist ["ops@example.com"]) (.str "logs") .pynone .pynone
        (.float 5) (.int 10))
      = .error PyErr.typeError :=
  ⟨⟨(.str "", none), rfl⟩, ⟨(.pynone, none), rfl⟩,
   construct_and_configure_always_fail.2.1 []
     (configureHandlerKwargs (.str "smtp.example.com") (.str "noreply@example.com")
       (.strlist ["ops@example.com"]) (.str "logs") .pynone .pynone
       (.float 5) (.int 10))
     ⟨(.str "", none), rfl⟩ ⟨(.pynone, none), rfl⟩⟩

/-- Claim C4, counterexample: with capacity 1 and an empty buffer, a
single emit reaches the threshold, the flush attempt fails (the line-110
dispatch raises `TypeError`), the reassignment that empties the buffer is
skipped, and the completed emit leaves the buffer at length 1 — not
strictly below the capacity 1, and the buffer is not empty after the
append that reached capacity. -/
theorem capacity_invariant_counterexample :
    (InovatSMTPHandler.emit id (.ok ()) (mkState 1 []) "a").state.buffer.length = 1 ∧
    ¬ (((InovatSMTPHandler.emit id (.ok ()) (mkState 1 []) "a").state.buffer.length : Int)
        < (mkState 1 []).bufferSize) :=
  ⟨rfl, by decide⟩

/-- Claim C4 as amended: when the triggered flush completes without
raising (and trivially when no flush is triggered), every emit leaves the
buffer strictly below a positive capacity — the append that reaches
capacity is followed, inside the same locked region, by the reassignment
that empties the buffer. When the flush raises, the batch is retained and
the length reaches (or exceeds) the capacity. -/
theorem capacity_invariant_with_successful_flush (fmt : LogRecord → String)
    (s : InovatSMTPHandler) (r : LogRecord) (h : 1 ≤ s.bufferSize) :
    ((InovatSMTPHandler.emitGen (.ok ()) fmt s r).state.buffer.length : Int)
      < s.bufferSize := by
  by_cases hc : s.bufferSize ≤ (s.buffer.length : Int) + 1
  · simp [InovatSMTPHandler.emitGen, InovatSMTPHandler.emitTryBody, hc]
    omega
  · simp [InovatSMTPHandler.emitGen, InovatSMTPHandler.emitTryBody, hc]
    omega

/-- Witness for `capacity_invariant_with_successful_flush` at capacity 1. -/
theorem capacity_invariant_with_successful_flush_witness :
    ((1 : Int) ≤ (mkState 1 []).bufferSize) ∧
    ((InovatSMTPHandler.emitGen (.ok ()) id (mkState 1 []) "a").state.buffer.length : Int)
      < (mkState 1 []).bufferSize :=
  ⟨by decide,
   capacity_invariant_with_successful_flush id (mkState 1 []) "a" (by decide)⟩

/-- Claim C5: with capacity 2 and emits of "a", "b", "c" the code does
not perform floor(3/2) = 1 flush delivering ["a", "b"] and does not leave
["c"] in the buffer. Because every dispatched flush raises (line 110
calls the bound zero-parameter `__emit` with an extra argument), nothing
is ever delivered, the buffer is never drained, a flush is attempted on
both the second and the third emit, and all three records are still
buffered afterwards. -/
theorem flush_trace_capacity_two :
    (InovatSMTPHandler.runEmits id (.ok ()) (mkState 2 []) ["a", "b", "c"]).delivered
      = [] ∧
    (InovatSMTPHandler.runEmits id (.ok ()) (mkState 2 []) ["a", "b", "c"]).state.buffer
      = ["a", "b", "c"] ∧
    (InovatSMTPHandler.runEmits id (.ok ()) (mkState 2 []) ["a", "b", "c"]).attempted
      = [["a", "b"], ["a", "b", "c"]] ∧
    (InovatSMTPHandler.runEmits id (.ok ()) (mkState 2 []) ["a", "b", "c"]).hookCalls
      = ["b", "c"] :=
  ⟨rfl, rfl, rfl, rfl⟩

/-- Claim C6: any message a flush delivers carries as its body the
formatted texts of the attempted batch joined by the newline character,
ordered exactly as the records were appended to the buffer (the batch is
the buffer content at flush time: the earlier records followed by the
record whose emit triggered the flush), with sender, comma-joined
recipients and subject taken from the handler's endpoint fields. -/
theorem delivered_body_ordered_join (flushResult : Except PyErr Unit)
    (fmt : LogRecord → String) (s : InovatSMTPHandler) (r : LogRecord)
    (m : EmailMessage)
    (hm : m ∈ (InovatSMTPHandler.emitGen flushResult fmt s r).delivered) :
    m.content = specJoinedBody fmt (s.buffer ++ [r]) ∧
    m.fromaddr = s.fromaddr ∧
    m.toField = pyStrJoin "," s.toaddrs ∧
    m.subjectField = s.subject := by
  unfold InovatSMTPHandler.emitGen InovatSMTPHandler.emitTryBody at hm
  by_cases hc : s.bufferSize ≤ (s.buffer.length : Int) + 1
  · cases flushResult with
    | error e => simp [hc, exceptionCatches] at hm
    | ok u =>
      cases u
      simp [hc] at hm
      subst hm
      exact ⟨pyStrJoin_map_eq_specJoinedBody fmt (s.buffer ++ [r]), rfl, rfl, rfl⟩
  · cases flushResult with
    | error e => simp [hc, exceptionCatches] at hm
    | ok u => cases u; simp [hc] at hm

/-- Witness for `delivered_body_ordered_join`: capacity 1, a successful
flush of the single record "a". -/
theorem delivered_body_ordered_join_witness :
    InovatSMTPHandler.privateEmitMessage id (mkState 1 ["a"]) ∈
      (InovatSMTPHandler.emitGen (.ok ()) id (mkState 1 []) "a").delivered ∧
    (InovatSMTPHandler.privateEmitMessage id (mkState 1 ["a"])).content
      = specJoinedBody id ((mkState 1 []).buffer ++ ["a"]) :=
  ⟨by decide,
   (delivered_body_ordered_join (.ok ()) id (mkState 1 []) "a"
      (InovatSMTPHandler.privateEmitMessage id (mkState 1 ["a"])) (by decide)).1⟩

/-- Claim C7: the buffer is reset only when the waited-on flush returns
without raising — when it raises, the handler jumps to the exception
branch before the reassignment of line 111, so the failed batch stays in
the buffer and the next threshold-reaching emit attempts a flush whose
batch extends it; when the flush returns normally the buffer is left
empty. -/
theorem failed_flush_batch_in_next_attempt (e : PyErr)
    (fmt : LogRecord → String) (s : InovatSMTPHandler) (r : LogRecord)
    (fr2 : Except PyErr Unit) (r2 : LogRecord)
    (h : (s.buffer.length : Int) + 1 ≥ s.bufferSize) :
    (InovatSMTPHandler.emitGen (.error e) fmt s r).state.buffer = s.buffer ++ [r] ∧
    (InovatSMTPHandler.emitGen fr2 fmt
        (InovatSMTPHandler.emitGen (.error e) fmt s r).state r2).attempted
      = [s.buffer ++ [r] ++ [r2]] ∧
    (InovatSMTPHandler.emitGen (.ok ()) fmt s r).state.buffer = [] := by
  have hthr : s.bufferSize ≤ (s.buffer.length : Int) + 1 := h
  have hthr2 : s.bufferSize ≤ (s.buffer.length : Int) + 2 := by omega
  refine ⟨?_, ?_, ?_⟩
  · simp [InovatSMTPHandler.emitGen, InovatSMTPHandler.emitTryBody, hthr,
      exceptionCatches]
  · cases fr2 with
    | error e2 =>
      simp [InovatSMTPHandler.emitGen, InovatSMTPHandler.emitTryBody, hthr,
        hthr2, exceptionCatches]
    | ok u =>
      cases u
      simp [InovatSMTPHandler.emitGen, InovatSMTPHandler.emitTryBody, hthr,
        hthr2, exceptionCatches]
  · simp [InovatSMTPHandler.emitGen, InovatSMTPHandler.emitTryBody, hthr]

/-- Witness for `failed_flush_batch_in_next_attempt` at capacity 1. -/
theorem failed_flush_batch_in_next_attempt_witness :
    (((mkState 1 []).buffer.length : Int) + 1 ≥ (mkState 1 []).bufferSize) ∧
    (InovatSMTPHandler.emitGen (.ok ()) id
        (InovatSMTPHandler.emitGen (.error PyErr.typeError) id (mkState 1 []) "a").state
        "b").attempted
      = [(mkState 1 []).buffer ++ ["a"] ++ ["b"]] :=
  ⟨by decide,
   (failed_flush_batch_in_next_attempt PyErr.typeError id (mkState 1 []) "a"
      (.ok ()) "b" (by decide)).2.1⟩

/-- Claim C8: on the unconfigured facade every logging call raises (a
bare `Exception`, so nothing is silently discarded) — but `configure()`
itself always raises too (the configuration model has no fields and the
handler constructor raises `TypeError`), so the facade never becomes
configured and the repeated call after `configure()` still raises instead
of succeeding. -/
theorem facade_failing_trace :
    SMTPLogger.log (SMTPLogger.construct ⟨⟩) "x" = .error PyErr.exception ∧
    SMTPLogger.debug (SMTPLogger.construct ⟨⟩) "x" = .error PyErr.exception ∧
    SMTPLogger.info (SMTPLogger.construct ⟨⟩) "x" = .error PyErr.exception ∧
    SMTPLogger.warning (SMTPLogger.construct ⟨⟩) "x" = .error PyErr.exception ∧
    SMTPLogger.error (SMTPLogger.construct ⟨⟩) "x" = .error PyErr.exception ∧
    SMTPLogger.critical (SMTPLogger.construct ⟨⟩) "x" = .error PyErr.exception ∧
    (SMTPLogger.configure (SMTPLogger.construct ⟨⟩)).1 = .error PyErr.exception ∧
    SMTPLogger.info (SMTPLogger.configure (SMTPLogger.construct ⟨⟩)).2 "x"
      = .error PyErr.exception :=
  ⟨rfl, rfl, rfl, rfl, rfl, rfl, rfl, rfl⟩

/-- Claim C9, counterexample: the failure raised when constructing with
`buffer_size=0` is the `TypeError` of the buffer-initialisation statement
(re-raised by `configure` as a bare `Exception`) — not a capacity-aware
`ConfigurationError` — and a positive `buffer_size=10` fails identically,
so the capacity value is never validated. -/
theorem capacity_error_kind_counterexample :
    InovatSMTPHandler.construct []
      (configureHandlerKwargs (.str "smtp.example.com") (.str "noreply@example.com")
        (.strlist ["ops@example.com"]) (.str "logs") .pynone .pynone
        (.float 5) (.int 0))
      = .error PyErr.typeError ∧
    InovatSMTPHandler.construct []
      (configureHandlerKwargs (.str "smtp.example.com") (.str "noreply@example.com")
        (.strlist ["ops@example.com"]) (.str "logs") .pynone .pynone
        (.float 5) (.int 10))
      = .error PyErr.typeError ∧
    PyErr.typeError ≠ PyErr.configurationError ∧
    (SMTPLogger.configure (SMTPLogger.construct ⟨⟩)).1 = .error PyErr.exception ∧
    PyErr.exception ≠ PyErr.configurationError :=
  ⟨rfl, rfl, by decide, rfl, by decide⟩

/-- Claim C9 as amended: for every non-positive buffer capacity (indeed
for every capacity) construction fails before any record is ever
buffered — with the constructor's line-99 `TypeError` whenever the
credentials argument survives the stdlib two-element unpack (with the
unpack's `ValueError` otherwise), and never with a capacity-specific
`ConfigurationError`; the capacity value is never validated, and no
record is appended under such a capacity at runtime because no handler is
ever constructed. -/
theorem nonpositive_capacity_construction_fails (mh fa ta sj cr se tmo : PyVal)
    (bs : Int) (_h : bs ≤ 0) :
    (InovatSMTPHandler.construct []
        (configureHandlerKwargs mh fa ta sj cr se tmo (.int bs))
        = .error PyErr.typeError ∨
     InovatSMTPHandler.construct []
        (configureHandlerKwargs mh fa ta sj cr se tmo (.int bs))
        = .error PyErr.valueError) ∧
    ((∃ y, unpackCredentials cr = .ok y) →
      InovatSMTPHandler.construct []
        (configureHandlerKwargs mh fa ta sj cr se tmo (.int bs))
        = .error PyErr.typeError) ∧
    PyErr.typeError ≠ PyErr.configurationError ∧
    PyErr.valueError ≠ PyErr.configurationError := by
  refine ⟨construct_error_cases _ _, fun hc => ?_, by decide, by decide⟩
  exact construct_eq_typeError_of_unpack_ok _ _ ⟨(.str "", none), rfl⟩ hc

/-- Witness for `nonpositive_capacity_construction_fails` at capacity 0
with `None` credentials. -/
theorem nonpositive_capacity_construction_fails_witness :
    ((0 : Int) ≤ 0) ∧
    InovatSMTPHandler.construct []
      (configureHandlerKwargs (.str "h") (.str "f") (.strlist ["t"]) (.str "s")
        .pynone .pynone (.float 5) (.int 0))
      = .error PyErr.typeError :=
  ⟨by decide,
   (nonpositive_capacity_construction_fails (.str "h") (.str "f") (.strlist ["t"])
      (.str "s") .pynone .pynone (.float 5) 0 (by decide)).2.1
     ⟨(.pynone, none), rfl⟩⟩

/-- Claim C10: when the endpoint host is supplied as the keyword argument
`mailhost=` — exactly how `SMTPLogger.configure` passes it — line 82 looks
up the misspelled key `"maihost"`, misses, and falls back to `""`: the
handler would store `""` as its host, and `__emit` connects to the stored
`mailhost` field, so the host given at construction is never the host
used at connect time. -/
theorem mailhost_keyword_dropped :
    extractMailhostArg []
      (configureHandlerKwargs (.str "smtp.example.com") (.str "noreply@example.com")
        (.strlist ["ops@example.com"]) (.str "logs") .pynone .pynone
        (.float 5) (.int 10))
      = PyVal.str "" ∧
    PyVal.str "" ≠ PyVal.str "smtp.example.com" ∧
    (∀ s : InovatSMTPHandler, (InovatSMTPHandler.connectParams s).1 = s.mailhost) :=
  ⟨rfl, by decide, fun _ => rfl⟩
